import Mathlib

/-!
Verification of the monitor coordination and collection pipeline of
kubenetbench (file kubenetbench/core/monitor.go), as a shallow embedding.
External collaborators (Kubernetes cluster-state queries, the gRPC
transport, the remote monitor agents and the filesystem) are modelled as
oracle environments passed to the embedded functions; the control flow of
the Go functions is translated directly.
-/

namespace KubeNetBench

/-- Errors are modelled by their message strings (the result of err.Error()). -/
abbrev Err := String

/-- Bytes, as natural numbers (the byte values are not interpreted by this code). -/
abbrev Byte := Nat

/-- The constant monitorPort from monitor.go. -/
def monitorPort : String := "8451"

/-- The constant monitorSelector from monitor.go. -/
def monitorSelector : String := "role=monitor"

/-- net.JoinHostPort: joins host and port with a colon, bracketing hosts
that themselves contain a colon (strings.Contains over the characters of
the host). -/
def joinHostPort (host port : String) : String :=
  if host.toList.contains ':' then ("[" ++ host ++ "]:" ++ port) else host ++ ":" ++ port

/-- Terminal event of a receive stream: io.EOF (clean end of data) or some
other receive error. -/
inductive RecvEnd
| eof
| recvErr (e : Err)
deriving DecidableEq

/-- A server-to-client file stream (the FileReceiver interface): the chunk
payloads (pb.File Data fields) delivered by successive Recv calls, followed
by the terminal event. -/
structure RecvStream where
  chunks : List (List Byte)
  fin : RecvEnd
deriving DecidableEq

/-- Filesystem oracle for one copyStreamToFile call: whether os.OpenFile
fails, and whether the i-th f.Write call fails. -/
structure FsEnv where
  openErr : Option Err
  writeErr : Nat → Option Err

/-- The receive/write loop of copyStreamToFile: Recv a chunk, append its
bytes to the file, until the terminal event.  Returns the final file
contents together with the returned error (none = nil). -/
def copyLoop (env : FsEnv) : Nat → List Byte → List (List Byte) → RecvEnd → List Byte × Option Err
| _, file, [], RecvEnd.eof => (file, none)
| _, file, [], RecvEnd.recvErr e => (file, some ("io error: " ++ e))
| i, file, c :: rest, fin =>
  match env.writeErr i with
  | some e => (file, some ("Error writing data: " ++ e))
  | none => copyLoop env (i + 1) (file ++ c) rest fin

/-- copyStreamToFile: opens fname with O_CREATE, O_WRONLY and O_APPEND, so
the prior contents pre of the file are kept and appended to (pre is [] when
the file did not exist), then drains the stream into the file. -/
def copyStreamToFile (env : FsEnv) (pre : List Byte) (st : RecvStream) : List Byte × Option Err :=
  match env.openErr with
  | some e => (pre, some e)
  | none => copyLoop env 0 pre st.chunks st.fin

/-- The fields of core.Session that the monitor code reads. -/
structure Session where
  portForward : Bool
  dir : String

/-- Oracle for the external collaborators of the monitor code: the
cluster-state queries KubeGetNodeIP, KubeGetPodForNode and KubePortForward,
and the transport dial grpc.Dial (outcome keyed by the target address;
none = the dial succeeded). -/
structure KubeEnv where
  nodeIP : String → Except Err String
  podForNode : String → String → Except Err String
  kubePortForward : String → String → Except Err String
  dial : String → Option Err

/-- srvAddrForNode: with port forwarding disabled, pair the node IP with the
fixed monitor port; with port forwarding enabled, find the monitor pod on
the node, establish the tunnel, and use localhost with the local port.
Failures of the collaborators are returned unchanged. -/
def srvAddrForNode (s : Session) (env : KubeEnv) (nodeName : String) : Except Err String :=
  if !s.portForward then
    match env.nodeIP nodeName with
    | Except.error e => Except.error e
    | Except.ok nodeIPv => Except.ok (joinHostPort nodeIPv monitorPort)
  else
    match env.podForNode nodeName monitorSelector with
    | Except.error e => Except.error e
    | Except.ok monitorPod =>
      match env.kubePortForward monitorPod monitorPort with
      | Except.error e => Except.error e
      | Except.ok port => Except.ok (joinHostPort ("localhost") port)

/-- Result of DialMonitor: the returned connection (represented by its
target address) or the returned error, plus whether grpc.Dial was attempted
at all. -/
structure DialResult where
  conn : Except Err String
  dialAttempted : Bool

/-- DialMonitor: resolve the monitor address of the node, then dial it; a
resolution failure is returned (wrapped) without any dial attempt, and a
dial failure is returned wrapped with the address. -/
def DialMonitor (s : Session) (env : KubeEnv) (nodeName : String) : DialResult :=
  match srvAddrForNode s env nodeName with
  | Except.error e =>
    ⟨Except.error ("failed to obtain monitor address of node " ++ nodeName ++ ": " ++ e), false⟩
  | Except.ok srvAddr =>
    match env.dial srvAddr with
    | some e => ⟨Except.error ("failed to connect to monitor " ++ srvAddr ++ ": " ++ e), true⟩
    | none => ⟨Except.ok srvAddr, true⟩

/-- The node set that startCollection discovers from the pod rows returned
by KubeGetPods__ (each row lists PodName, PodNodeName, PodPhase; the keys of
the nodes map are the distinct node names; Go map iteration order is
arbitrary, so theorems below quantify over the resulting node list). -/
def discoveredNodes (podsinfo : List (List String)) : List String :=
  (podsinfo.map (fun a => a.getD 1 "")).dedup

/-- Result of the startCollection fan-out: the nodes whose monitor was
attempted (DialMonitor issued), the participating set collectNodes, and the
returned error (none = nil). -/
structure StartResult where
  attempted : List String
  collectNodes : List String
  ret : Option Err

/-- The fan-out loop of startCollection over the discovered node set: dial
the monitor on each node (a resolution or dial failure is returned
immediately, aborting the loop); otherwise issue the StartCollection call
(outcome given by the oracle startRPC; none = ack) and append the node to
collectNodes exactly when that call succeeded, else only log. -/
def startLoop (s : Session) (env : KubeEnv) (startRPC : String → Option Err) :
    List String → List String → List String → StartResult
| [], attempted, coll => ⟨attempted, coll, none⟩
| node :: rest, attempted, coll =>
  match (DialMonitor s env node).conn with
  | Except.error e => ⟨attempted ++ [node], coll, some e⟩
  | Except.ok _ =>
    match startRPC node with
    | none => startLoop s env startRPC rest (attempted ++ [node]) (coll ++ [node])
    | some _ => startLoop s env startRPC rest (attempted ++ [node]) coll

/-- startCollection, given the discovered node set, starting from the empty
participating set of a fresh run. -/
def startCollection (s : Session) (env : KubeEnv) (startRPC : String → Option Err)
    (nodes : List String) : StartResult :=
  startLoop s env startRPC nodes [] []

/-- The fields of core.RunBenchCtx that the monitor code reads. -/
structure RunBenchCtx where
  runid : String
  dir : String
  collectNodes : List String

/-- Result of endCollection: the nodes of collectNodes whose monitor was
attempted, the log lines printed, and the returned error. -/
structure EndResult where
  attempted : List String
  logs : List String
  ret : Option Err

/-- The artifact file name used by endCollection for one node. -/
def perfFileName (dir node : String) : String :=
  dir ++ "/perf-" ++ node ++ ".tar.bz2"

/-- The retrieval loop of endCollection: for each node of collectNodes, dial
the monitor (a failure returns that error immediately, aborting the loop);
issue GetCollectionResults (oracle getResults; a failure is only logged);
copy the stream into the perf artifact file (the outcome of that
copyStreamToFile call is the oracle copyRes; either way only logged).  The
err returned after the loop is the outer variable, which the shadowed
bindings inside the loop never assign, so it is still nil. -/
def endLoop (s : Session) (env : KubeEnv) (getResults copyRes : String → Option Err)
    (dir : String) : List String → List String → List String → EndResult
| [], attempted, logs => ⟨attempted, logs, none⟩
| node :: rest, attempted, logs =>
  match (DialMonitor s env node).conn with
  | Except.error e => ⟨attempted ++ [node], logs, some e⟩
  | Except.ok _ =>
    let logs1 :=
      match getResults node with
      | some e => logs ++ ["collection on monitor " ++ node ++ " failed: " ++ e]
      | none => logs
    let logs2 :=
      match copyRes node with
      | some e => logs1 ++ ["writing collection data from node " ++ node ++ " failed: " ++ e]
      | none => logs1 ++ ["perf data for " ++ node ++ " can be found in: " ++ perfFileName dir node]
    endLoop s env getResults copyRes dir rest (attempted ++ [node]) logs2

/-- endCollection over the participating set recorded in the run context. -/
def endCollection (s : Session) (env : KubeEnv) (getResults copyRes : String → Option Err)
    (r : RunBenchCtx) : EndResult :=
  endLoop s env getResults copyRes r.dir r.collectNodes [] []

/-- Helper for goFields: scan the characters, accumulating the current
field in reverse; whitespace closes the current field. -/
def fieldsAux : List Char → List Char → List String
| [], [] => []
| [], acc => [String.mk acc.reverse]
| c :: cs, acc =>
  if c.isWhitespace then
    match acc with
    | [] => fieldsAux cs []
    | _ => String.mk acc.reverse :: fieldsAux cs []
  else
    fieldsAux cs (c :: acc)

/-- strings.Fields: split the row around runs of whitespace, so the result
is the list of maximal whitespace-free substrings. -/
def goFields (s : String) : List String :=
  fieldsAux s.toList []

/-- The retriesOrig constant of GetSysInfoNodes. -/
def retriesOrig : Nat := 10

/-- The fixed delay, in seconds, slept between attempts:
time.Sleep(4 * time.Second). -/
def retrySleepSeconds : Nat := 4

/-- Trace of the per-node retry loop of GetSysInfoNodes: the final outcome
(none = some call succeeded), the number of GetSysInfoNode calls made, and
the number of fixed-delay sleeps performed. -/
structure RetryTrace where
  result : Option Err
  calls : Nat
  sleeps : Nat
deriving DecidableEq

/-- The retry loop of GetSysInfoNodes for one node: call GetSysInfoNode
(the outcome of attempt k is call k; none = success), stop on success; on
failure with the retry counter exhausted report that last error; otherwise
decrement the counter, sleep the fixed delay, and retry. -/
def sysinfoRetry (call : Nat → Option Err) : Nat → Nat → RetryTrace
| 0, attempt =>
  match call attempt with
  | none => ⟨none, 1, 0⟩
  | some e => ⟨some e, 1, 0⟩
| r + 1, attempt =>
  match call attempt with
  | none => ⟨none, 1, 0⟩
  | some _ =>
    let t := sysinfoRetry call r (attempt + 1)
    ⟨t.result, t.calls + 1, t.sleeps + 1⟩

/-- A permanent per-node failure recorded by GetSysInfoNodes. -/
structure SysinfoFailure where
  node : String
  retries : Nat
  lastErr : Err
deriving DecidableEq

/-- The message appended to errstr for one permanent per-node failure. -/
def renderFailure (f : SysinfoFailure) : String :=
  "Error calling GetSysInfoNode " ++ f.node ++ " after " ++ toString f.retries ++
    " retries (last error:" ++ f.lastErr ++ ")"

/-- The errstr string accumulated by GetSysInfoNodes: each failure message
appended after a newline. -/
def errstrOf (fails : List SysinfoFailure) : String :=
  fails.foldl (fun acc f => acc ++ "\n" ++ renderFailure f) ""

/-- Outcome of GetSysInfoNodes: either log.Fatal on a row that does not have
exactly two fields (the process terminates, nothing is returned and no
further row is processed), or normal completion with the recorded permanent
failures, the nodes whose sysinfo file was written, and the returned value
(none = nil, some = the aggregate error message). -/
inductive GsiOutcome
| fatal (line : String)
| done (fails : List SysinfoFailure) (written : List String) (ret : Option String)
deriving DecidableEq

/-- The per-row loop of GetSysInfoNodes.  Each row must split into exactly
two fields, node name and IP, else log.Fatal.  The oracle call gives the
outcome of the k-th GetSysInfoNode call on a node (none = success, in which
case the file sessionDir/node.sysinfo has been written; note the Go
GetSysInfoNode ignores its node_ip argument, so the oracle is keyed by the
node name).  A permanent failure is recorded with the retriesOrig count and
the last error; the loop then continues with the remaining rows. -/
def gsiLoop (call : String → Nat → Option Err) :
    List String → List SysinfoFailure → List String → GsiOutcome
| [], fails, written =>
  GsiOutcome.done fails written
    (if errstrOf fails = "" then none
     else some ("GetSysInfoNodes() failed:\n" ++ errstrOf fails))
| line :: rest, fails, written =>
  let fields := goFields line
  if fields.length = 2 then
    let nodeName := fields.getD 0 ""
    let t := sysinfoRetry (call nodeName) retriesOrig 0
    match t.result with
    | none => gsiLoop call rest fails (written ++ [nodeName])
    | some e => gsiLoop call rest (fails ++ [⟨nodeName, retriesOrig, e⟩]) written
  else
    GsiOutcome.fatal line

/-- GetSysInfoNodes over the rows returned by KubeGetNodesAndIps. -/
def GetSysInfoNodes (call : String → Nat → Option Err) (lines : List String) : GsiOutcome :=
  gsiLoop call lines [] []

/-! Concrete fixtures used to instantiate the theorems below. -/

/-- A session with port forwarding disabled. -/
def sessDirect : Session := ⟨false, "/sess"⟩

/-- A cluster oracle where every collaborator call succeeds. -/
def kubeOK : KubeEnv :=
  ⟨fun _ => Except.ok ("10.0.0.1"), fun _ _ => Except.ok ("pod"),
   fun _ _ => Except.ok ("9999"), fun _ => none⟩

/-- A cluster oracle where the IP of node A cannot be determined and every
other collaborator call succeeds. -/
def kubeFailA : KubeEnv :=
  ⟨fun n => if n = "A" then Except.error ("no IP") else Except.ok ("10.0.0.1"),
   fun _ _ => Except.ok ("pod"), fun _ _ => Except.ok ("9999"), fun _ => none⟩

/-- A filesystem oracle with no failures. -/
def fsClean : FsEnv := ⟨none, fun _ => none⟩

/-- A filesystem oracle whose first write fails. -/
def fsFail0 : FsEnv := ⟨none, fun i => if i = 0 then some ("disk full") else none⟩

/-! Helper lemmas about the stream-copy loop. -/

theorem copyLoop_clean (env : FsEnv) :
    ∀ (chunks : List (List Byte)) (i : Nat) (file : List Byte),
    (∀ k, k < chunks.length → env.writeErr (i + k) = none) →
    copyLoop env i file chunks RecvEnd.eof = (file ++ chunks.flatten, none) := by
  intro chunks
  induction chunks with
  | nil => intro i file _; simp [copyLoop]
  | cons c rest ih =>
    intro i file h
    have h0 : env.writeErr i = none := by simpa using h 0 (by simp)
    have hrest : ∀ k, k < rest.length → env.writeErr (i + 1 + k) = none := by
      intro k hk
      have hx := h (k + 1) (by simpa using Nat.succ_lt_succ hk)
      rw [show i + 1 + k = i + (k + 1) by omega]
      exact hx
    simp [copyLoop, h0, ih (i + 1) (file ++ c) hrest, List.flatten, List.append_assoc]

theorem copyLoop_recvErr (env : FsEnv) (e : Err) :
    ∀ (chunks : List (List Byte)) (i : Nat) (file : List Byte),
    (∀ k, k < chunks.length → env.writeErr (i + k) = none) →
    copyLoop env i file chunks (RecvEnd.recvErr e)
      = (file ++ chunks.flatten, some ("io error: " ++ e)) := by
  intro chunks
  induction chunks with
  | nil => intro i file _; simp [copyLoop]
  | cons c rest ih =>
    intro i file h
    have h0 : env.writeErr i = none := by simpa using h 0 (by simp)
    have hrest : ∀ k, k < rest.length → env.writeErr (i + 1 + k) = none := by
      intro k hk
      have hx := h (k + 1) (by simpa using Nat.succ_lt_succ hk)
      rw [show i + 1 + k = i + (k + 1) by omega]
      exact hx
    simp [copyLoop, h0, ih (i + 1) (file ++ c) hrest, List.flatten, List.append_assoc]

theorem copyLoop_writeErr (env : FsEnv) (w : Err) :
    ∀ (chunks : List (List Byte)) (j i : Nat) (file : List Byte) (fin : RecvEnd),
    env.writeErr (i + j) = some w →
    (∀ k, k < j → env.writeErr (i + k) = none) →
    j < chunks.length →
    copyLoop env i file chunks fin
      = (file ++ (chunks.take j).flatten, some ("Error writing data: " ++ w)) := by
  intro chunks
  induction chunks with
  | nil => intro j i file fin _ _ hlt; simp at hlt
  | cons c rest ih =>
    intro j i file fin hj hbefore hlt
    cases j with
    | zero =>
      have h0 : env.writeErr i = some w := by simpa using hj
      simp [copyLoop, h0]
    | succ j2 =>
      have h0 : env.writeErr i = none := by simpa using hbefore 0 (Nat.succ_pos _)
      have hj2 : env.writeErr (i + 1 + j2) = some w := by
        rw [show i + 1 + j2 = i + (j2 + 1) by omega]; exact hj
      have hb2 : ∀ k, k < j2 → env.writeErr (i + 1 + k) = none := by
        intro k hk
        rw [show i + 1 + k = i + (k + 1) by omega]
        exact hbefore (k + 1) (by omega)
      have hlt2 : j2 < rest.length := by simpa using Nat.lt_of_succ_lt_succ hlt
      simp [copyLoop, h0, ih j2 (i + 1) (file ++ c) fin hj2 hb2 hlt2,
        List.flatten, List.append_assoc]

theorem copyLoop_extends (env : FsEnv) :
    ∀ (chunks : List (List Byte)) (fin : RecvEnd) (i : Nat) (file : List Byte),
    ∃ t, (copyLoop env i file chunks fin).1 = file ++ t := by
  intro chunks
  induction chunks with
  | nil => intro fin i file; exact ⟨[], by cases fin <;> simp [copyLoop]⟩
  | cons c rest ih =>
    intro fin i file
    cases hw : env.writeErr i with
    | some e => exact ⟨[], by simp [copyLoop, hw]⟩
    | none =>
      obtain ⟨t, ht⟩ := ih fin (i + 1) (file ++ c)
      exact ⟨c ++ t, by simp [copyLoop, hw, ht, List.append_assoc]⟩

/-! Helper lemmas about the startCollection fan-out loop. -/

theorem startLoop_dials_ok (s : Session) (env : KubeEnv) (rpc : String → Option Err) :
    ∀ (nodes attempted coll : List String),
    (∀ m ∈ nodes, ∃ a, (DialMonitor s env m).conn = Except.ok a) →
    (startLoop s env rpc nodes attempted coll).attempted = attempted ++ nodes
    ∧ (startLoop s env rpc nodes attempted coll).ret = none := by
  intro nodes
  induction nodes with
  | nil => intro attempted coll _; simp [startLoop]
  | cons n rest ih =>
    intro attempted coll h
    obtain ⟨a, ha⟩ := h n (by simp)
    have hrest : ∀ m ∈ rest, ∃ x, (DialMonitor s env m).conn = Except.ok x := by
      intro m hm; exact h m (by simp [hm])
    cases hr : rpc n with
    | none =>
      simpa [startLoop, ha, hr, List.append_assoc] using
        ih (attempted ++ [n]) (coll ++ [n]) hrest
    | some e =>
      simpa [startLoop, ha, hr, List.append_assoc] using
        ih (attempted ++ [n]) coll hrest

theorem startLoop_dial_fails (s : Session) (env : KubeEnv) (rpc : String → Option Err)
    (n : String) (e : Err) (after : List String)
    (hfail : (DialMonitor s env n).conn = Except.error e) :
    ∀ (before attempted coll : List String),
    (∀ m ∈ before, ∃ a, (DialMonitor s env m).conn = Except.ok a) →
    (startLoop s env rpc (before ++ n :: after) attempted coll).attempted
      = attempted ++ before ++ [n]
    ∧ (startLoop s env rpc (before ++ n :: after) attempted coll).ret = some e := by
  intro before
  induction before with
  | nil => intro attempted coll _; simp [startLoop, hfail]
  | cons b rest ih =>
    intro attempted coll h
    obtain ⟨a, ha⟩ := h b (by simp)
    have hrest : ∀ m ∈ rest, ∃ x, (DialMonitor s env m).conn = Except.ok x := by
      intro m hm; exact h m (by simp [hm])
    cases hr : rpc b with
    | none =>
      simpa [startLoop, ha, hr, List.append_assoc] using
        ih (attempted ++ [b]) (coll ++ [b]) hrest
    | some e2 =>
      simpa [startLoop, ha, hr, List.append_assoc] using
        ih (attempted ++ [b]) coll hrest

theorem startLoop_mem (s : Session) (env : KubeEnv) (rpc : String → Option Err) :
    ∀ (nodes attempted coll : List String) (n : String),
    n ∈ (startLoop s env rpc nodes attempted coll).collectNodes →
    n ∈ coll ∨ (n ∈ nodes ∧ rpc n = none ∧ ∃ a, (DialMonitor s env n).conn = Except.ok a) := by
  intro nodes
  induction nodes with
  | nil => intro attempted coll n h; left; simpa [startLoop] using h
  | cons m rest ih =>
    intro attempted coll n h
    cases hd : (DialMonitor s env m).conn with
    | error e => left; simpa [startLoop, hd] using h
    | ok a =>
      cases hr : rpc m with
      | none =>
        have h2 := ih (attempted ++ [m]) (coll ++ [m]) n
          (by simpa [startLoop, hd, hr] using h)
        rcases h2 with h2 | h2
        · rcases List.mem_append.mp h2 with h3 | h3
          · left; exact h3
          · right
            have hnm : n = m := by simpa using h3
            subst hnm
            exact ⟨by simp, hr, ⟨a, hd⟩⟩
        · right; exact ⟨by simp [h2.1], h2.2.1, h2.2.2⟩
      | some e =>
        have h2 := ih (attempted ++ [m]) coll n
          (by simpa [startLoop, hd, hr] using h)
        rcases h2 with h2 | h2
        · left; exact h2
        · right; exact ⟨by simp [h2.1], h2.2.1, h2.2.2⟩

theorem startLoop_coll_attempted (s : Session) (env : KubeEnv) (rpc : String → Option Err) :
    ∀ (nodes attempted coll : List String),
    (∀ x ∈ coll, x ∈ attempted) →
    ∀ n, n ∈ (startLoop s env rpc nodes attempted coll).collectNodes →
    n ∈ (startLoop s env rpc nodes attempted coll).attempted := by
  intro nodes
  induction nodes with
  | nil =>
    intro attempted coll hsub n h
    simp [startLoop] at h ⊢
    exact hsub n h
  | cons m rest ih =>
    intro attempted coll hsub n h
    cases hd : (DialMonitor s env m).conn with
    | error e =>
      simp [startLoop, hd] at h ⊢
      exact Or.inl (hsub n h)
    | ok a =>
      cases hr : rpc m with
      | none =>
        have hsub2 : ∀ x ∈ coll ++ [m], x ∈ attempted ++ [m] := by
          intro x hx
          rcases List.mem_append.mp hx with hx | hx
          · exact List.mem_append.mpr (Or.inl (hsub x hx))
          · exact List.mem_append.mpr (Or.inr hx)
        have h3 := ih (attempted ++ [m]) (coll ++ [m]) hsub2 n
          (by simpa [startLoop, hd, hr] using h)
        simpa [startLoop, hd, hr] using h3
      | some e =>
        have hsub2 : ∀ x ∈ coll, x ∈ attempted ++ [m] := by
          intro x hx
          exact List.mem_append.mpr (Or.inl (hsub x hx))
        have h3 := ih (attempted ++ [m]) coll hsub2 n
          (by simpa [startLoop, hd, hr] using h)
        simpa [startLoop, hd, hr] using h3

/-! Helper lemmas about the endCollection retrieval loop. -/

theorem endLoop_dials_ok (s : Session) (env : KubeEnv)
    (getRes copyRes : String → Option Err) (dir : String) :
    ∀ (nodes attempted logs : List String),
    (∀ m ∈ nodes, ∃ a, (DialMonitor s env m).conn = Except.ok a) →
    (endLoop s env getRes copyRes dir nodes attempted logs).attempted = attempted ++ nodes
    ∧ (endLoop s env getRes copyRes dir nodes attempted logs).ret = none := by
  intro nodes
  induction nodes with
  | nil => intro attempted logs _; simp [endLoop]
  | cons n rest ih =>
    intro attempted logs h
    obtain ⟨a, ha⟩ := h n (by simp)
    have hrest : ∀ m ∈ rest, ∃ x, (DialMonitor s env m).conn = Except.ok x := by
      intro m hm; exact h m (by simp [hm])
    cases hg : getRes n with
    | none =>
      cases hc : copyRes n with
      | none =>
        simpa [endLoop, ha, hg, hc, List.append_assoc] using
          ih (attempted ++ [n]) (logs ++ [("perf data for " ++ n ++ " can be found in: " ++ perfFileName dir n)]) hrest
      | some e =>
        simpa [endLoop, ha, hg, hc, List.append_assoc] using
          ih (attempted ++ [n]) (logs ++ [("writing collection data from node " ++ n ++ " failed: " ++ e)]) hrest
    | some ge =>
      cases hc : copyRes n with
      | none =>
        simpa [endLoop, ha, hg, hc, List.append_assoc] using
          ih (attempted ++ [n]) ((logs ++ [("collection on monitor " ++ n ++ " failed: " ++ ge)]) ++ [("perf data for " ++ n ++ " can be found in: " ++ perfFileName dir n)]) hrest
      | some e =>
        simpa [endLoop, ha, hg, hc, List.append_assoc] using
          ih (attempted ++ [n]) ((logs ++ [("collection on monitor " ++ n ++ " failed: " ++ ge)]) ++ [("writing collection data from node " ++ n ++ " failed: " ++ e)]) hrest

theorem endLoop_dial_fails (s : Session) (env : KubeEnv)
    (getRes copyRes : String → Option Err) (dir : String)
    (n : String) (e : Err) (after : List String)
    (hfail : (DialMonitor s env n).conn = Except.error e) :
    ∀ (before attempted logs : List String),
    (∀ m ∈ before, ∃ a, (DialMonitor s env m).conn = Except.ok a) →
    (endLoop s env getRes copyRes dir (before ++ n :: after) attempted logs).attempted
      = attempted ++ before ++ [n]
    ∧ (endLoop s env getRes copyRes dir (before ++ n :: after) attempted logs).ret = some e := by
  intro before
  induction before with
  | nil => intro attempted logs _; simp [endLoop, hfail]
  | cons b rest ih =>
    intro attempted logs h
    obtain ⟨a, ha⟩ := h b (by simp)
    have hrest : ∀ m ∈ rest, ∃ x, (DialMonitor s env m).conn = Except.ok x := by
      intro m hm; exact h m (by simp [hm])
    cases hg : getRes b with
    | none =>
      cases hc : copyRes b with
      | none =>
        simpa [endLoop, ha, hg, hc, List.append_assoc] using ih (attempted ++ [b]) _ hrest
      | some e2 =>
        simpa [endLoop, ha, hg, hc, List.append_assoc] using ih (attempted ++ [b]) _ hrest
    | some ge =>
      cases hc : copyRes b with
      | none =>
        simpa [endLoop, ha, hg, hc, List.append_assoc] using ih (attempted ++ [b]) _ hrest
      | some e2 =>
        simpa [endLoop, ha, hg, hc, List.append_assoc] using ih (attempted ++ [b]) _ hrest

theorem endLoop_logs_extend (s : Session) (env : KubeEnv)
    (getRes copyRes : String → Option Err) (dir : String) :
    ∀ (nodes attempted logs : List String),
    ∃ t, (endLoop s env getRes copyRes dir nodes attempted logs).logs = logs ++ t := by
  intro nodes
  induction nodes with
  | nil => intro attempted logs; exact ⟨[], by simp [endLoop]⟩
  | cons n rest ih =>
    intro attempted logs
    cases hd : (DialMonitor s env n).conn with
    | error e => exact ⟨[], by simp [endLoop, hd]⟩
    | ok a =>
      cases hg : getRes n with
      | none =>
        cases hc : copyRes n with
        | none =>
          obtain ⟨t, ht⟩ := ih (attempted ++ [n])
            (logs ++ [("perf data for " ++ n ++ " can be found in: " ++ perfFileName dir n)])
          refine ⟨("perf data for " ++ n ++ " can be found in: " ++ perfFileName dir n) :: t, ?_⟩
          simp [endLoop, hd, hg, hc]
          rw [ht]
          simp
        | some e =>
          obtain ⟨t, ht⟩ := ih (attempted ++ [n])
            (logs ++ [("writing collection data from node " ++ n ++ " failed: " ++ e)])
          refine ⟨("writing collection data from node " ++ n ++ " failed: " ++ e) :: t, ?_⟩
          simp [endLoop, hd, hg, hc]
          rw [ht]
          simp
      | some ge =>
        cases hc : copyRes n with
        | none =>
          obtain ⟨t, ht⟩ := ih (attempted ++ [n])
            (logs ++ [("collection on monitor " ++ n ++ " failed: " ++ ge), ("perf data for " ++ n ++ " can be found in: " ++ perfFileName dir n)])
          refine ⟨("collection on monitor " ++ n ++ " failed: " ++ ge) :: ("perf data for " ++ n ++ " can be found in: " ++ perfFileName dir n) :: t, ?_⟩
          simp [endLoop, hd, hg, hc]
          rw [ht]
          simp
        | some e =>
          obtain ⟨t, ht⟩ := ih (attempted ++ [n])
            (logs ++ [("collection on monitor " ++ n ++ " failed: " ++ ge), ("writing collection data from node " ++ n ++ " failed: " ++ e)])
          refine ⟨("collection on monitor " ++ n ++ " failed: " ++ ge) :: ("writing collection data from node " ++ n ++ " failed: " ++ e) :: t, ?_⟩
          simp [endLoop, hd, hg, hc]
          rw [ht]
          simp

theorem endLoop_log_mem (s : Session) (env : KubeEnv)
    (getRes copyRes : String → Option Err) (dir : String) (m : String) (ge : Err)
    (hge : getRes m = some ge) :
    ∀ (nodes attempted logs : List String),
    (∀ x ∈ nodes, ∃ a, (DialMonitor s env x).conn = Except.ok a) →
    m ∈ nodes →
    ("collection on monitor " ++ m ++ " failed: " ++ ge)
      ∈ (endLoop s env getRes copyRes dir nodes attempted logs).logs := by
  intro nodes
  induction nodes with
  | nil => intro attempted logs _ hm; simp at hm
  | cons n rest ih =>
    intro attempted logs hok hm
    obtain ⟨a, ha⟩ := hok n (by simp)
    have hrest : ∀ x ∈ rest, ∃ y, (DialMonitor s env x).conn = Except.ok y := by
      intro x hx; exact hok x (by simp [hx])
    rcases List.mem_cons.mp hm with hmn | hm2
    · subst hmn
      cases hc : copyRes m with
      | none =>
        obtain ⟨t, ht⟩ := endLoop_logs_extend s env getRes copyRes dir rest (attempted ++ [m])
          (logs ++ [("collection on monitor " ++ m ++ " failed: " ++ ge), ("perf data for " ++ m ++ " can be found in: " ++ perfFileName dir m)])
        simp [endLoop, ha, hge, hc]
        rw [ht]
        simp
      | some e =>
        obtain ⟨t, ht⟩ := endLoop_logs_extend s env getRes copyRes dir rest (attempted ++ [m])
          (logs ++ [("collection on monitor " ++ m ++ " failed: " ++ ge), ("writing collection data from node " ++ m ++ " failed: " ++ e)])
        simp [endLoop, ha, hge, hc]
        rw [ht]
        simp
    · cases hg : getRes n with
      | none =>
        cases hc : copyRes n with
        | none => simpa [endLoop, ha, hg, hc] using ih (attempted ++ [n]) _ hrest hm2
        | some e => simpa [endLoop, ha, hg, hc] using ih (attempted ++ [n]) _ hrest hm2
      | some ge2 =>
        cases hc : copyRes n with
        | none => simpa [endLoop, ha, hg, hc] using ih (attempted ++ [n]) _ hrest hm2
        | some e => simpa [endLoop, ha, hg, hc] using ih (attempted ++ [n]) _ hrest hm2

/-! Helper lemmas about the sysinfo retry loop and GetSysInfoNodes. -/

theorem sysinfoRetry_ok (call : Nat → Option Err) (retries attempt : Nat)
    (h : call attempt = none) :
    sysinfoRetry call retries attempt = ⟨none, 1, 0⟩ := by
  cases retries <;> simp [sysinfoRetry, h]

theorem sysinfoRetry_exhaust (call : Nat → Option Err) :
    ∀ (retries attempt : Nat),
    (∀ k, k ≤ retries → (call (attempt + k)).isSome = true) →
    (sysinfoRetry call retries attempt).result = call (attempt + retries)
    ∧ (sysinfoRetry call retries attempt).calls = retries + 1
    ∧ (sysinfoRetry call retries attempt).sleeps = retries := by
  intro retries
  induction retries with
  | zero =>
    intro attempt h
    have h0 := h 0 (Nat.le_refl 0)
    rw [Nat.add_zero] at h0
    cases hc : call attempt with
    | none => rw [hc] at h0; simp at h0
    | some e => simp [sysinfoRetry, hc]
  | succ r ih =>
    intro attempt h
    have h0 := h 0 (Nat.zero_le _)
    rw [Nat.add_zero] at h0
    cases hc : call attempt with
    | none => rw [hc] at h0; simp at h0
    | some e =>
      have h2 : ∀ k, k ≤ r → (call (attempt + 1 + k)).isSome = true := by
        intro k hk
        rw [show attempt + 1 + k = attempt + (k + 1) by omega]
        exact h (k + 1) (by omega)
      obtain ⟨ha, hb, hd⟩ := ih (attempt + 1) h2
      have hsimp : sysinfoRetry call (r + 1) attempt =
          ⟨(sysinfoRetry call r (attempt + 1)).result,
           (sysinfoRetry call r (attempt + 1)).calls + 1,
           (sysinfoRetry call r (attempt + 1)).sleeps + 1⟩ := by
        simp [sysinfoRetry, hc]
      rw [hsimp]
      refine ⟨?_, ?_, ?_⟩
      · show (sysinfoRetry call r (attempt + 1)).result = call (attempt + (r + 1))
        rw [show attempt + (r + 1) = attempt + 1 + r by omega]
        exact ha
      · show (sysinfoRetry call r (attempt + 1)).calls + 1 = r + 1 + 1
        rw [hb]
      · show (sysinfoRetry call r (attempt + 1)).sleeps + 1 = r + 1
        rw [hd]

theorem errstr_foldl_ge (fails : List SysinfoFailure) :
    ∀ acc : String,
    acc.length ≤ (fails.foldl (fun a f => a ++ "\n" ++ renderFailure f) acc).length := by
  induction fails with
  | nil => intro acc; simp
  | cons f fs ih =>
    intro acc
    calc acc.length ≤ (acc ++ "\n" ++ renderFailure f).length := by
          simp [String.length_append]
          omega
      _ ≤ _ := by simpa using ih (acc ++ "\n" ++ renderFailure f)

theorem errstrOf_empty_iff (fails : List SysinfoFailure) :
    errstrOf fails = "" ↔ fails = [] := by
  constructor
  · intro h
    cases fails with
    | nil => rfl
    | cons f fs =>
      exfalso
      have h2 := errstr_foldl_ge fs ("" ++ "\n" ++ renderFailure f)
      have h3 : errstrOf (f :: fs)
          = fs.foldl (fun a g => a ++ "\n" ++ renderFailure g) ("" ++ "\n" ++ renderFailure f) := by
        simp [errstrOf]
      rw [h3] at h
      have h4 := congrArg String.length h
      have h5 : ("" : String).length = 0 := rfl
      have h6 : ("\n" : String).length = 1 := rfl
      rw [h4] at h2
      simp [String.length_append, h5, h6] at h2
  · intro h; subst h; rfl

theorem gsiLoop_step_fail (call : String → Nat → Option Err) (line n ip : String)
    (rest : List String) (e : Err)
    (hline : goFields line = [n, ip])
    (hres : (sysinfoRetry (call n) retriesOrig 0).result = some e) :
    ∀ (fails : List SysinfoFailure) (written : List String),
    gsiLoop call (line :: rest) fails written
      = gsiLoop call rest (fails ++ [⟨n, retriesOrig, e⟩]) written := by
  intro fails written
  simp [gsiLoop, hline, hres]

theorem gsiLoop_step_ok (call : String → Nat → Option Err) (line n ip : String)
    (rest : List String)
    (hline : goFields line = [n, ip])
    (hres : (sysinfoRetry (call n) retriesOrig 0).result = none) :
    ∀ (fails : List SysinfoFailure) (written : List String),
    gsiLoop call (line :: rest) fails written
      = gsiLoop call rest fails (written ++ [n]) := by
  intro fails written
  simp [gsiLoop, hline, hres]

theorem gsiLoop_fatal_reached (call : String → Nat → Option Err) (bad : String)
    (rest : List String)
    (hbad : ¬ (goFields bad).length = 2) :
    ∀ (good : List String) (fails : List SysinfoFailure) (written : List String),
    (∀ l ∈ good, (goFields l).length = 2) →
    gsiLoop call (good ++ bad :: rest) fails written = GsiOutcome.fatal bad := by
  intro good
  induction good with
  | nil => intro fails written _; simp [gsiLoop, hbad]
  | cons l ls ih =>
    intro fails written h
    have hl := h l (by simp)
    have hrest : ∀ x ∈ ls, (goFields x).length = 2 := by
      intro x hx; exact h x (by simp [hx])
    obtain ⟨n, ip, hnl⟩ := List.length_eq_two.mp hl
    rw [List.cons_append]
    cases ht : (sysinfoRetry (call n) retriesOrig 0).result with
    | none =>
      rw [gsiLoop_step_ok call l n ip (ls ++ bad :: rest) hnl ht fails written]
      exact ih fails (written ++ [n]) hrest
    | some e =>
      rw [gsiLoop_step_fail call l n ip (ls ++ bad :: rest) e hnl ht fails written]
      exact ih (fails ++ [⟨n, retriesOrig, e⟩]) written hrest

/-! Claim theorems. -/

/-- C4: copyStreamToFile opens the path in append mode (the prior contents
pre are kept, never truncated), receives the chunks in order and appends
each to the file; a clean end-of-data terminates with success and the file
extended by exactly the concatenation of the chunk payloads; any other
receive error, and any write error, aborts the transfer and is surfaced to
the caller wrapped around the underlying cause; and in every case the
resulting file extends the prior contents. -/
theorem c4_copy_stream_to_file (envc envw : FsEnv) (pre : List Byte)
    (chunks : List (List Byte)) (e w : Err) (j : Nat) (fin : RecvEnd) (st : RecvStream)
    (hoc : envc.openErr = none)
    (hwc : ∀ i, envc.writeErr i = none)
    (how : envw.openErr = none)
    (hj : envw.writeErr j = some w)
    (hbefore : ∀ i, i < j → envw.writeErr i = none)
    (hlt : j < chunks.length) :
    copyStreamToFile envc pre ⟨chunks, RecvEnd.eof⟩ = (pre ++ chunks.flatten, none)
    ∧ copyStreamToFile envc pre ⟨chunks, RecvEnd.recvErr e⟩
        = (pre ++ chunks.flatten, some ("io error: " ++ e))
    ∧ copyStreamToFile envw pre ⟨chunks, fin⟩
        = (pre ++ (chunks.take j).flatten, some ("Error writing data: " ++ w))
    ∧ (∃ t, (copyStreamToFile envw pre st).1 = pre ++ t) := by
  refine ⟨?_, ?_, ?_, ?_⟩
  · simp only [copyStreamToFile, hoc]
    exact copyLoop_clean envc chunks 0 pre (fun k _ => by simpa using hwc k)
  · simp only [copyStreamToFile, hoc]
    exact copyLoop_recvErr envc e chunks 0 pre (fun k _ => by simpa using hwc k)
  · simp only [copyStreamToFile, how]
    exact copyLoop_writeErr envw w chunks j 0 pre fin (by simpa using hj)
      (fun k hk => by simpa using hbefore k hk) hlt
  · simp only [copyStreamToFile, how]
    exact copyLoop_extends envw st.chunks st.fin 0 pre

/-- C4 witness: a clean two-chunk stream appended after pre-contents, and a
stream whose first write fails, evaluated concretely. -/
theorem c4_copy_stream_to_file_witness :
    copyStreamToFile fsClean [1, 2] ⟨[[3], [4, 5]], RecvEnd.eof⟩ = ([1, 2, 3, 4, 5], none)
    ∧ copyStreamToFile fsFail0 [1, 2] ⟨[[3], [4, 5]], RecvEnd.eof⟩
        = ([1, 2], some ("Error writing data: " ++ "disk full")) := by
  have h := c4_copy_stream_to_file fsClean fsFail0 [1, 2] [[3], [4, 5]] "reset" "disk full"
    0 RecvEnd.eof ⟨[[3], [4, 5]], RecvEnd.eof⟩ rfl (fun _ => rfl) rfl rfl
    (fun i hi => absurd hi (by omega)) (by decide)
  exact ⟨by simpa using h.1, by simpa using h.2.2.1⟩

/-- C8: two successful copyStreamToFile calls against the same path
accumulate: the file afterwards holds the pre-existing content, then the
bytes of the first call, then the bytes of the second call, and its length
is the prior length plus the sum of all delivered chunk sizes. -/
theorem c8_append_accumulates (env : FsEnv) (pre : List Byte) (c1 c2 : List (List Byte))
    (ho : env.openErr = none) (hw : ∀ i, env.writeErr i = none) :
    (copyStreamToFile env pre ⟨c1, RecvEnd.eof⟩).2 = none
    ∧ copyStreamToFile env (copyStreamToFile env pre ⟨c1, RecvEnd.eof⟩).1 ⟨c2, RecvEnd.eof⟩
        = (pre ++ c1.flatten ++ c2.flatten, none)
    ∧ (copyStreamToFile env (copyStreamToFile env pre ⟨c1, RecvEnd.eof⟩).1 ⟨c2, RecvEnd.eof⟩).1.length
        = pre.length + (c1.map List.length).sum + (c2.map List.length).sum := by
  have k1 : copyStreamToFile env pre ⟨c1, RecvEnd.eof⟩ = (pre ++ c1.flatten, none) := by
    simp only [copyStreamToFile, ho]
    exact copyLoop_clean env c1 0 pre (fun k _ => by simpa using hw k)
  have k2 : copyStreamToFile env (pre ++ c1.flatten) ⟨c2, RecvEnd.eof⟩
      = (pre ++ c1.flatten ++ c2.flatten, none) := by
    simp only [copyStreamToFile, ho]
    exact copyLoop_clean env c2 0 (pre ++ c1.flatten) (fun k _ => by simpa using hw k)
  refine ⟨by rw [k1], ?_, ?_⟩
  · rw [k1]; exact k2
  · rw [k1, k2]
    simp [List.length_append, List.length_flatten, Nat.add_assoc]

/-- C8 witness: re-running a clean copy against the same path accumulates,
evaluated concretely. -/
theorem c8_append_accumulates_witness :
    copyStreamToFile fsClean (copyStreamToFile fsClean [9] ⟨[[1]], RecvEnd.eof⟩).1
        ⟨[[2, 3]], RecvEnd.eof⟩ = ([9, 1, 2, 3], none) := by
  have h := c8_append_accumulates fsClean [9] [[1]] [[2, 3]] rfl (fun _ => rfl)
  simpa using h.2.1

/-- C7: endpoint resolution pairs the node IP with the well-known monitor
port in direct mode and fails if the IP cannot be determined; in
port-forward mode it tunnels to the pod matching the fixed monitor selector
on the node and returns localhost with the forwarded port, failing if no
such pod is found or the tunnel cannot be established; and whenever
resolution fails, DialMonitor returns that error wrapped, without any dial
attempt. -/
theorem c7_resolution (s : Session) (env : KubeEnv) (n ip pod fwdPort : String) (e : Err) :
    (s.portForward = false → env.nodeIP n = Except.ok ip →
      srvAddrForNode s env n = Except.ok (joinHostPort ip monitorPort))
    ∧ (s.portForward = false → env.nodeIP n = Except.error e →
      srvAddrForNode s env n = Except.error e)
    ∧ (s.portForward = true → env.podForNode n monitorSelector = Except.ok pod →
      env.kubePortForward pod monitorPort = Except.ok fwdPort →
      srvAddrForNode s env n = Except.ok (joinHostPort ("localhost") fwdPort))
    ∧ (s.portForward = true → env.podForNode n monitorSelector = Except.error e →
      srvAddrForNode s env n = Except.error e)
    ∧ (s.portForward = true → env.podForNode n monitorSelector = Except.ok pod →
      env.kubePortForward pod monitorPort = Except.error e →
      srvAddrForNode s env n = Except.error e)
    ∧ (srvAddrForNode s env n = Except.error e →
      DialMonitor s env n
        = ⟨Except.error ("failed to obtain monitor address of node " ++ n ++ ": " ++ e), false⟩) := by
  refine ⟨?_, ?_, ?_, ?_, ?_, ?_⟩
  · intro hpf hip; simp [srvAddrForNode, hpf, hip]
  · intro hpf hip; simp [srvAddrForNode, hpf, hip]
  · intro hpf hp hfw; simp [srvAddrForNode, hpf, hp, hfw]
  · intro hpf hp; simp [srvAddrForNode, hpf, hp]
  · intro hpf hp hfw; simp [srvAddrForNode, hpf, hp, hfw]
  · intro hres; simp [DialMonitor, hres]

/-- C7 witness: direct resolution of a node under the all-success oracle,
and the no-dial behaviour when the IP of node A cannot be determined. -/
theorem c7_resolution_witness :
    srvAddrForNode sessDirect kubeOK ("X") = Except.ok (joinHostPort ("10.0.0.1") monitorPort)
    ∧ DialMonitor sessDirect kubeFailA ("A")
      = ⟨Except.error ("failed to obtain monitor address of node " ++ "A" ++ ": " ++ "no IP"),
         false⟩ := by
  constructor
  · exact (c7_resolution sessDirect kubeOK ("X") ("10.0.0.1") ("pod") ("9999") ("x")).1 rfl rfl
  · exact (c7_resolution sessDirect kubeFailA ("A") ("ip") ("pod") ("9999") ("no IP")).2.2.2.2.2 rfl

/-- C9: endCollection returns nil whenever the dial succeeds for every node
of the participating set, whatever the per-node GetCollectionResults and
stream-transfer outcomes: those failures are only logged and are never
reflected in the returned error value. -/
theorem c9_end_collection_nil (s : Session) (env : KubeEnv)
    (getRes copyRes : String → Option Err) (r : RunBenchCtx)
    (hok : ∀ x ∈ r.collectNodes, ∃ a, (DialMonitor s env x).conn = Except.ok a) :
    (endCollection s env getRes copyRes r).ret = none :=
  (endLoop_dials_ok s env getRes copyRes r.dir r.collectNodes [] [] hok).2

/-- C9 witness: with both remote retrieval and the stream transfer failing
on every node, endCollection still returns nil. -/
theorem c9_end_collection_nil_witness :
    (endCollection sessDirect kubeOK (fun _ => some ("remote failure"))
        (fun _ => some ("transfer failed")) ⟨"run1", "/sess", ["A", "B"]⟩).ret = none :=
  c9_end_collection_nil sessDirect kubeOK (fun _ => some ("remote failure"))
    (fun _ => some ("transfer failed")) ⟨"run1", "/sess", ["A", "B"]⟩
    (fun _ _ => ⟨"10.0.0.1:8451", rfl⟩)

/-- C1 counterexample: with discovered node set [A, B] where the endpoint
resolution of node A fails, startCollection returns that error immediately
and node B — a remaining node — is never attempted, so a single node
failure does abort the fan-out, contrary to the claim. -/
theorem c1_counterexample :
    (startCollection sessDirect kubeFailA (fun _ => none) ["A", "B"]).ret ≠ none
    ∧ "B" ∉ (startCollection sessDirect kubeFailA (fun _ => none) ["A", "B"]).attempted :=
  ⟨by decide, by decide⟩

/-- C1 (amended): in the startCollection fan-out, a failure of the remote
StartCollection call alone is logged for that node and does not abort the
fan-out — when the monitor of every discovered node can be resolved and
dialled, every node is attempted whatever the per-node StartCollection
outcomes, and nil is returned; however an endpoint-resolution or dial
failure on one node aborts the fan-out immediately: that error is returned
and the remaining nodes are not attempted. -/
theorem c1_start_fanout (s : Session) (env : KubeEnv) (startRPC : String → Option Err)
    (nodes before after : List String) (n : String) (e : Err)
    (hok : ∀ m ∈ nodes, ∃ a, (DialMonitor s env m).conn = Except.ok a)
    (hbefore : ∀ m ∈ before, ∃ a, (DialMonitor s env m).conn = Except.ok a)
    (hfail : (DialMonitor s env n).conn = Except.error e) :
    (startCollection s env startRPC nodes).attempted = nodes
    ∧ (startCollection s env startRPC nodes).ret = none
    ∧ (startCollection s env startRPC (before ++ n :: after)).attempted = before ++ [n]
    ∧ (startCollection s env startRPC (before ++ n :: after)).ret = some e := by
  obtain ⟨h1, h2⟩ := startLoop_dials_ok s env startRPC nodes [] [] hok
  obtain ⟨h3, h4⟩ := startLoop_dial_fails s env startRPC n e after hfail before [] [] hbefore
  exact ⟨by simpa [startCollection] using h1, h2,
    by simpa [startCollection] using h3, h4⟩

/-- C1 witness: under the oracle where the resolution of node A fails, the
fan-out over [B, C] attempts both nodes even though the StartCollection
call on B is refused, while the fan-out over [B, A, C] stops at A. -/
theorem c1_start_fanout_witness :
    (startCollection sessDirect kubeFailA
        (fun m => if m = "B" then some ("rpc refused") else none) ["B", "C"]).attempted
      = ["B", "C"]
    ∧ (startCollection sessDirect kubeFailA
        (fun m => if m = "B" then some ("rpc refused") else none)
        (["B"] ++ "A" :: ["C"])).ret
      = some ("failed to obtain monitor address of node " ++ "A" ++ ": " ++ "no IP") := by
  have h := c1_start_fanout sessDirect kubeFailA
    (fun m => if m = "B" then some ("rpc refused") else none)
    ["B", "C"] ["B"] ["C"] "A"
    ("failed to obtain monitor address of node " ++ "A" ++ ": " ++ "no IP")
    (by
      intro m hm
      simp at hm
      rcases hm with rfl | rfl
      · exact ⟨"10.0.0.1:8451", rfl⟩
      · exact ⟨"10.0.0.1:8451", rfl⟩)
    (by
      intro m hm
      simp at hm
      subst hm
      exact ⟨"10.0.0.1:8451", rfl⟩)
    rfl
  exact ⟨h.1, h.2.2.2⟩

/-- C2 counterexample: after a run where the StartCollection call succeeded
on both A and B (so collectNodes = [A, B]), an endCollection during which
the resolution of A fails aborts before contacting B, so endCollection does
not contact exactly the participating set. -/
theorem c2_counterexample :
    "B" ∈ (startCollection sessDirect kubeOK (fun _ => none) ["A", "B"]).collectNodes
    ∧ "B" ∉ (endCollection sessDirect kubeFailA (fun _ => none) (fun _ => none)
        ⟨"run1", "/sess",
          (startCollection sessDirect kubeOK (fun _ => none) ["A", "B"]).collectNodes⟩).attempted :=
  ⟨by decide, by decide⟩

/-- C2 (amended): every node of the participating set collectNodes was
attempted during startCollection, is one of the discovered nodes, and had a
successful StartCollection acknowledgment over a successfully dialled
connection — so no node whose start call failed, and no unattempted node,
is ever in the set; and endCollection dials exactly the nodes of that set
provided each of them can be dialled again (a dial failure during
endCollection stops the retrieval early, so in general it contacts only a
initial segment of the set). -/
theorem c2_participating_set (s s2 : Session) (env env2 : KubeEnv)
    (startRPC getResults copyRes : String → Option Err)
    (nodes : List String) (runid2 dir2 : String) (n : String)
    (hn : n ∈ (startCollection s env startRPC nodes).collectNodes)
    (hend : ∀ m ∈ (startCollection s env startRPC nodes).collectNodes,
      ∃ a, (DialMonitor s2 env2 m).conn = Except.ok a) :
    n ∈ (startCollection s env startRPC nodes).attempted
    ∧ n ∈ nodes ∧ startRPC n = none
    ∧ (∃ a, (DialMonitor s env n).conn = Except.ok a)
    ∧ (endCollection s2 env2 getResults copyRes
        ⟨runid2, dir2, (startCollection s env startRPC nodes).collectNodes⟩).attempted
      = (startCollection s env startRPC nodes).collectNodes := by
  have hmem := startLoop_mem s env startRPC nodes [] [] n
    (by simpa [startCollection] using hn)
  rcases hmem with h | h
  · simp at h
  · have hatt := startLoop_coll_attempted s env startRPC nodes [] [] (by simp) n
      (by simpa [startCollection] using hn)
    obtain ⟨he1, he2⟩ := endLoop_dials_ok s2 env2 getResults copyRes dir2
      (startCollection s env startRPC nodes).collectNodes [] [] hend
    exact ⟨by simpa [startCollection] using hatt, h.1, h.2.1, h.2.2,
      by simpa [endCollection] using he1⟩

/-- C2 witness: a run over [A, B] with every start call acknowledged,
followed by an endCollection whose dials all succeed: node A of the
participating set was attempted, and endCollection dials exactly the
participating set. -/
theorem c2_participating_set_witness :
    "A" ∈ (startCollection sessDirect kubeOK (fun _ => none) ["A", "B"]).attempted
    ∧ (endCollection sessDirect kubeOK (fun _ => none) (fun _ => none)
        ⟨"r", "/sess",
          (startCollection sessDirect kubeOK (fun _ => none) ["A", "B"]).collectNodes⟩).attempted
      = (startCollection sessDirect kubeOK (fun _ => none) ["A", "B"]).collectNodes := by
  have h := c2_participating_set sessDirect sessDirect kubeOK kubeOK
    (fun _ => none) (fun _ => none) (fun _ => none) ["A", "B"] "r" "/sess" "A"
    (by decide) (fun _ _ => ⟨"10.0.0.1:8451", rfl⟩)
  exact ⟨h.1, h.2.2.2.2⟩

/-- C3 counterexample: with participating set [A, B], a resolution failure
on node A makes endCollection return that error at once: node B — a
remaining node of the participating set — is never attempted, contrary to
the claim that node-level failures never abort retrieval. -/
theorem c3_counterexample :
    (endCollection sessDirect kubeFailA (fun _ => none) (fun _ => none)
        ⟨"run1", "/sess", ["A", "B"]⟩).attempted = ["A"]
    ∧ (endCollection sessDirect kubeFailA (fun _ => none) (fun _ => none)
        ⟨"run1", "/sess", ["A", "B"]⟩).ret ≠ none :=
  ⟨by decide, by decide⟩

/-- C3 (amended): during endCollection, a failed GetCollectionResults call
and a failed stream transfer are only logged (with the node identity) and
do not abort retrieval — when every node of the participating set can be
dialled, every node is attempted and nil is returned, and the failure of
the remote retrieval on a node appears in the log; but a failed
resolution or dial aborts endCollection immediately with that error,
leaving the remaining nodes unattempted; failures are logged, not
aggregated into the return value. -/
theorem c3_end_failures (s s2 : Session) (env env2 : KubeEnv)
    (getRes copyRes getRes2 copyRes2 : String → Option Err)
    (r : RunBenchCtx) (runid2 dir2 : String)
    (before after : List String) (n m : String) (e ge : Err)
    (hok : ∀ x ∈ r.collectNodes, ∃ a, (DialMonitor s env x).conn = Except.ok a)
    (hmem : m ∈ r.collectNodes) (hge : getRes m = some ge)
    (hbef : ∀ x ∈ before, ∃ a, (DialMonitor s2 env2 x).conn = Except.ok a)
    (hf : (DialMonitor s2 env2 n).conn = Except.error e) :
    (endCollection s env getRes copyRes r).attempted = r.collectNodes
    ∧ (endCollection s env getRes copyRes r).ret = none
    ∧ ("collection on monitor " ++ m ++ " failed: " ++ ge)
        ∈ (endCollection s env getRes copyRes r).logs
    ∧ (endCollection s2 env2 getRes2 copyRes2
        ⟨runid2, dir2, before ++ n :: after⟩).attempted = before ++ [n]
    ∧ (endCollection s2 env2 getRes2 copyRes2
        ⟨runid2, dir2, before ++ n :: after⟩).ret = some e := by
  obtain ⟨h1, h2⟩ := endLoop_dials_ok s env getRes copyRes r.dir r.collectNodes [] [] hok
  have h3 := endLoop_log_mem s env getRes copyRes r.dir m ge hge r.collectNodes [] [] hok hmem
  obtain ⟨h4, h5⟩ := endLoop_dial_fails s2 env2 getRes2 copyRes2 dir2 n e after hf before [] [] hbef
  exact ⟨by simpa [endCollection] using h1, h2, by simpa [endCollection] using h3,
    by simpa [endCollection] using h4, h5⟩

/-- C3 witness: with participating set [A] and the remote retrieval
failing, endCollection attempts A, logs the failure and returns nil; with
participating set [A, B] under the oracle where the resolution of A fails,
it returns that error after attempting only A. -/
theorem c3_end_failures_witness :
    (endCollection sessDirect kubeOK (fun _ => some ("remote boom")) (fun _ => none)
        ⟨"r", "/sess", ["A"]⟩).ret = none
    ∧ ("collection on monitor " ++ "A" ++ " failed: " ++ "remote boom")
        ∈ (endCollection sessDirect kubeOK (fun _ => some ("remote boom")) (fun _ => none)
            ⟨"r", "/sess", ["A"]⟩).logs
    ∧ (endCollection sessDirect kubeFailA (fun _ => none) (fun _ => none)
        ⟨"r2", "/sess", [] ++ "A" :: ["B"]⟩).ret
      = some ("failed to obtain monitor address of node " ++ "A" ++ ": " ++ "no IP") := by
  have h := c3_end_failures sessDirect sessDirect kubeOK kubeFailA
    (fun _ => some ("remote boom")) (fun _ => none) (fun _ => none) (fun _ => none)
    ⟨"r", "/sess", ["A"]⟩ "r2" "/sess" [] ["B"] "A" "A"
    ("failed to obtain monitor address of node " ++ "A" ++ ": " ++ "no IP") ("remote boom")
    (fun _ _ => ⟨"10.0.0.1:8451", rfl⟩) (by decide) rfl
    (by intro x hx; cases hx) rfl
  exact ⟨h.2.1, h.2.2.1, h.2.2.2.2⟩

/-- C5: for a node row whose sysinfo calls keep failing, the per-node call
is made once and then retried up to the fixed bound of retriesOrig = 10
retries (so retriesOrig + 1 calls in total), with the fixed
retrySleepSeconds = 4 second delay slept between consecutive attempts
(retriesOrig sleeps); on exhausting the attempts a permanent failure is
recorded that carries the retry bound, the node identity and the last
underlying error, and the loop continues with the remaining rows. -/
theorem c5_sysinfo_retry (call : String → Nat → Option Err)
    (n ip : String) (rest : List String) (fails : List SysinfoFailure)
    (written : List String) (e10 : Err)
    (hline : goFields (n ++ " " ++ ip) = [n, ip])
    (hfail : ∀ k, k ≤ retriesOrig → (call n k).isSome = true)
    (h10 : call n retriesOrig = some e10) :
    (sysinfoRetry (call n) retriesOrig 0).calls = retriesOrig + 1
    ∧ (sysinfoRetry (call n) retriesOrig 0).sleeps = retriesOrig
    ∧ retriesOrig = 10 ∧ retrySleepSeconds = 4
    ∧ gsiLoop call ((n ++ " " ++ ip) :: rest) fails written
        = gsiLoop call rest (fails ++ [⟨n, retriesOrig, e10⟩]) written := by
  obtain ⟨ha, hb, hc⟩ := sysinfoRetry_exhaust (call n) retriesOrig 0
    (fun k hk => by simpa using hfail k hk)
  have hres : (sysinfoRetry (call n) retriesOrig 0).result = some e10 := by
    rw [ha]; simpa using h10
  exact ⟨hb, hc, rfl, rfl,
    gsiLoop_step_fail call (n ++ " " ++ ip) n ip rest e10 hline hres fails written⟩

/-- C5 witness: a node whose sysinfo call always fails is called 11 times
(1 initial call + 10 retries) and recorded as a permanent failure. -/
theorem c5_sysinfo_retry_witness :
    (sysinfoRetry ((fun (_ : String) (_ : Nat) => some ("boom")) "A") retriesOrig 0).calls
      = retriesOrig + 1
    ∧ gsiLoop (fun _ _ => some ("boom")) [("A" ++ " " ++ "1.2.3.4")] [] []
        = gsiLoop (fun _ _ => some ("boom")) [] ([] ++ [⟨"A", retriesOrig, "boom"⟩]) [] := by
  have h := c5_sysinfo_retry (fun _ _ => some ("boom")) "A" "1.2.3.4" [] [] [] "boom"
    (by decide) (fun _ _ => rfl) rfl
  exact ⟨h.1, h.2.2.2.2⟩

/-- C6: over the node rows A, B, C, when every sysinfo call on B fails
while the calls on A and C succeed, GetSysInfoNodes returns a single
aggregate error built from exactly one recorded failure, the one of B, so it
mentions B and only B — while the sysinfo files of A and C (and only
those) are written; and when no node fails at all it returns nil with all
three files written. -/
theorem c6_sysinfo_aggregate (callF callOK : String → Nat → Option Err) (eB : Err)
    (hA : ∀ k, callF ("A") k = none)
    (hC : ∀ k, callF ("C") k = none)
    (hB : ∀ k, k ≤ retriesOrig → (callF ("B") k).isSome = true)
    (hB10 : callF ("B") retriesOrig = some eB)
    (hOK : ∀ nd k, callOK nd k = none) :
    GetSysInfoNodes callF ["A 10.0.0.1", "B 10.0.0.2", "C 10.0.0.3"]
      = GsiOutcome.done [⟨"B", retriesOrig, eB⟩] ["A", "C"]
          (some ("GetSysInfoNodes() failed:\n" ++ errstrOf [⟨"B", retriesOrig, eB⟩]))
    ∧ GetSysInfoNodes callOK ["A 10.0.0.1", "B 10.0.0.2", "C 10.0.0.3"]
      = GsiOutcome.done [] ["A", "B", "C"] none := by
  constructor
  · have hresA : (sysinfoRetry (callF ("A")) retriesOrig 0).result = none := by
      rw [sysinfoRetry_ok (callF ("A")) retriesOrig 0 (hA 0)]
    have hresC : (sysinfoRetry (callF ("C")) retriesOrig 0).result = none := by
      rw [sysinfoRetry_ok (callF ("C")) retriesOrig 0 (hC 0)]
    have hresB : (sysinfoRetry (callF ("B")) retriesOrig 0).result = some eB := by
      obtain ⟨ha, _, _⟩ := sysinfoRetry_exhaust (callF ("B")) retriesOrig 0
        (fun k hk => by simpa using hB k hk)
      rw [ha]; simpa using hB10
    have s1 : gsiLoop callF ["A 10.0.0.1", "B 10.0.0.2", "C 10.0.0.3"] [] []
        = gsiLoop callF ["B 10.0.0.2", "C 10.0.0.3"] [] ["A"] :=
      gsiLoop_step_ok callF ("A 10.0.0.1") "A" "10.0.0.1" ["B 10.0.0.2", "C 10.0.0.3"]
        (by decide) hresA [] []
    have s2 : gsiLoop callF ["B 10.0.0.2", "C 10.0.0.3"] [] ["A"]
        = gsiLoop callF ["C 10.0.0.3"] [⟨"B", retriesOrig, eB⟩] ["A"] :=
      gsiLoop_step_fail callF ("B 10.0.0.2") "B" "10.0.0.2" ["C 10.0.0.3"] eB
        (by decide) hresB [] ["A"]
    have s3 : gsiLoop callF ["C 10.0.0.3"] [⟨"B", retriesOrig, eB⟩] ["A"]
        = gsiLoop callF [] [⟨"B", retriesOrig, eB⟩] ["A", "C"] :=
      gsiLoop_step_ok callF ("C 10.0.0.3") "C" "10.0.0.3" [] (by decide) hresC
        [⟨"B", retriesOrig, eB⟩] ["A"]
    have hne : ¬ errstrOf [⟨"B", retriesOrig, eB⟩] = "" := by
      rw [errstrOf_empty_iff]; simp
    show gsiLoop callF ["A 10.0.0.1", "B 10.0.0.2", "C 10.0.0.3"] [] [] = _
    rw [s1, s2, s3]
    simp [gsiLoop, hne]
  · have hres : ∀ nd, (sysinfoRetry (callOK nd) retriesOrig 0).result = none := by
      intro nd
      rw [sysinfoRetry_ok (callOK nd) retriesOrig 0 (hOK nd 0)]
    have s1 : gsiLoop callOK ["A 10.0.0.1", "B 10.0.0.2", "C 10.0.0.3"] [] []
        = gsiLoop callOK ["B 10.0.0.2", "C 10.0.0.3"] [] ["A"] :=
      gsiLoop_step_ok callOK ("A 10.0.0.1") "A" "10.0.0.1" ["B 10.0.0.2", "C 10.0.0.3"]
        (by decide) (hres ("A")) [] []
    have s2 : gsiLoop callOK ["B 10.0.0.2", "C 10.0.0.3"] [] ["A"]
        = gsiLoop callOK ["C 10.0.0.3"] [] ["A", "B"] :=
      gsiLoop_step_ok callOK ("B 10.0.0.2") "B" "10.0.0.2" ["C 10.0.0.3"]
        (by decide) (hres ("B")) [] ["A"]
    have s3 : gsiLoop callOK ["C 10.0.0.3"] [] ["A", "B"]
        = gsiLoop callOK [] [] ["A", "B", "C"] :=
      gsiLoop_step_ok callOK ("C 10.0.0.3") "C" "10.0.0.3" [] (by decide) (hres ("C"))
        [] ["A", "B"]
    show gsiLoop callOK ["A 10.0.0.1", "B 10.0.0.2", "C 10.0.0.3"] [] [] = _
    rw [s1, s2, s3]
    simp [gsiLoop, errstrOf]

/-- C6 witness: the aggregate behaviour evaluated for the concrete oracle
where only the calls on node B fail. -/
theorem c6_sysinfo_aggregate_witness :
    GetSysInfoNodes (fun nd _ => if nd = "B" then some ("bfail") else none)
        ["A 10.0.0.1", "B 10.0.0.2", "C 10.0.0.3"]
      = GsiOutcome.done [⟨"B", retriesOrig, "bfail"⟩] ["A", "C"]
          (some ("GetSysInfoNodes() failed:\n" ++ errstrOf [⟨"B", retriesOrig, "bfail"⟩]))
    ∧ GetSysInfoNodes (fun _ _ => none) ["A 10.0.0.1", "B 10.0.0.2", "C 10.0.0.3"]
      = GsiOutcome.done [] ["A", "B", "C"] none := by
  have h := c6_sysinfo_aggregate (fun nd _ => if nd = "B" then some ("bfail") else none)
    (fun _ _ => none) "bfail" (fun _ => rfl) (fun _ => rfl) (fun _ _ => rfl) rfl
    (fun _ _ => rfl)
  exact ⟨h.1, h.2⟩

/-- C10: if a row returned by the node listing does not split into exactly
two whitespace-separated fields, GetSysInfoNodes terminates fatally at that
row (log.Fatal): no per-node failure is recorded for it and the remaining
rows are not processed. -/
theorem c10_malformed_row_fatal (call : String → Nat → Option Err)
    (good : List String) (bad : String) (rest : List String)
    (hgood : ∀ l ∈ good, (goFields l).length = 2)
    (hbad : ¬ (goFields bad).length = 2) :
    GetSysInfoNodes call (good ++ bad :: rest) = GsiOutcome.fatal bad :=
  gsiLoop_fatal_reached call bad rest hbad good [] [] hgood

/-- C10 witness: a malformed three-field row between two well-formed rows
makes GetSysInfoNodes terminate fatally on it. -/
theorem c10_malformed_row_fatal_witness :
    GetSysInfoNodes (fun _ _ => none) (["A 1.1.1.1"] ++ "oops x y" :: ["C 3.3.3.3"])
      = GsiOutcome.fatal ("oops x y") :=
  c10_malformed_row_fatal (fun _ _ => none) ["A 1.1.1.1"] "oops x y" ["C 3.3.3.3"]
    (by intro l hl; simp at hl; subst hl; decide) (by decide)

end KubeNetBench
